import Mathlib

/-!
Verification of the BuddyClaw Recovery & Provisioning Orchestrator.

This file gives a shallow embedding, in Lean 4, of the core logic of the
repository:

* `autonomous-recovery.js` — error classification (`classifyError`), the
  bounded retry loop with exponential backoff (`executeRecoveryStrategy`),
  the recovery entry point (`attemptRecovery`) and the bounded error
  history (`recordError`);
* the `AgentManager` class — agent registration, WordPress account
  registration, application-password generation, credential lookup and the
  persistence pair `loadAgents` / `saveAgents`;
* `enhanced-poster.js` — the `registerAndPublish` provisioning pipeline;
* `email-verifier.js` — the `checkEmailVerification` polling loop.

JavaScript strings are Lean `String`s, JS objects are Lean structures with
`Option` fields for possibly-absent members, machine time and external
effects (remote HTTP calls, random password generation, the wall clock,
the mailbox tool) are threaded in as explicit oracle parameters, and
`JSON.stringify` / `JSON.parse` are modelled at the level of a JSON value
tree (`Json`), their string/value round trip being faithful for the values
this program writes.  Sleeps are recorded as an explicit trace of delay
durations (in milliseconds) so that timing claims become statements about
that trace.
-/

namespace BuddyClaw

/-! ## String helpers: JS `includes` and `toLowerCase` -/

/-- Model of JavaScript `haystack.includes(needle)`: substring containment,
as contiguous-sublist containment on the character lists. -/
def strIncludes (s sub : String) : Bool := decide (sub.data <:+: s.data)

/-- Model of JavaScript `s.toLowerCase()` for the ASCII messages this
program manipulates: lower-case each character. -/
def strLower (s : String) : String := ⟨s.data.map Char.toLower⟩

/-! ## Error values

A JavaScript `Error` as the recovery engine sees it: a message, an
optional `code` (a string such as `'ECONNREFUSED'`) and an optional
numeric HTTP `status`. -/

structure JsError where
  message : String
  code : Option String := none
  status : Option Nat := none
deriving DecidableEq, Repr

/-- Model of `error.code || error.status || ''` (`autonomous-recovery.js`
line 87): JS `||` skips falsy values (`''`, `0`, `undefined`); a numeric
status is rendered as its decimal string, which is faithful because the
resulting value is only ever compared against `'ECONNREFUSED'`. -/
def JsError.errorCode (e : JsError) : String :=
  let fromStatus : String :=
    match e.status with
    | some n => if n = 0 then "" else toString n
    | none => ""
  match e.code with
  | some c => if c = "" then fromStatus else c
  | none => fromStatus

/-! ## Error classification (`classifyError`, lines 85–139) -/

inductive ErrorType where
  | authentication_error
  | authorization_error
  | captcha_error
  | membership_error
  | network_error
  | content_error
  | rate_limit_error
  | server_error
  | unknown_error
deriving DecidableEq, Repr

/-- Keyword rule for `authentication_error` (lines 90–93). -/
def authMatch (m : String) : Bool :=
  strIncludes m "401" || strIncludes m "unauthorized" ||
  strIncludes m "authentication" || strIncludes m "login"

/-- Keyword rule for `authorization_error` (lines 96–99). -/
def authzMatch (m : String) : Bool :=
  strIncludes m "403" || strIncludes m "forbidden" ||
  strIncludes m "permission" || strIncludes m "access denied"

/-- Keyword rule for `captcha_error` (lines 102–105). -/
def captchaMatch (m : String) : Bool :=
  strIncludes m "captcha" || strIncludes m "security check" ||
  strIncludes m "verification"

/-- Keyword rule for `membership_error` (lines 108–111). -/
def membershipMatch (m : String) : Bool :=
  strIncludes m "group" || strIncludes m "forum" ||
  strIncludes m "membership" || strIncludes m "join"

/-- Keyword rule for `network_error` (lines 114–117); also fires on the
`ECONNREFUSED` error code. -/
def networkMatch (m code : String) : Bool :=
  strIncludes m "network" || strIncludes m "timeout" ||
  strIncludes m "connection" || code == "ECONNREFUSED"

/-- Keyword rule for `content_error` (lines 120–123). -/
def contentMatch (m : String) : Bool :=
  strIncludes m "content" || strIncludes m "validation" ||
  strIncludes m "invalid" || strIncludes m "required"

/-- Keyword rule for `rate_limit_error` (lines 126–129). -/
def rateLimitMatch (m : String) : Bool :=
  strIncludes m "rate limit" || strIncludes m "too many requests" ||
  strIncludes m "429"

/-- Keyword rule for `server_error` (lines 132–135): note that the code
matches only these message substrings; the numeric HTTP status is never
consulted here. -/
def serverMatch (m : String) : Bool :=
  strIncludes m "500" || strIncludes m "server" || strIncludes m "internal"

/-- Model of `AutonomousRecovery.classifyError` (lines 85–139): first matching rule
wins; no match falls through to `unknown_error`.  Total by construction. -/
def classifyError (error : JsError) : ErrorType :=
  let m := strLower error.message
  let errorCode := error.errorCode
  if authMatch m then .authentication_error
  else if authzMatch m then .authorization_error
  else if captchaMatch m then .captcha_error
  else if membershipMatch m then .membership_error
  else if networkMatch m errorCode then .network_error
  else if contentMatch m then .content_error
  else if rateLimitMatch m then .rate_limit_error
  else if serverMatch m then .server_error
  else .unknown_error

/-! ## Recovery engine state (`AutonomousRecovery`, constructor lines 11–19) -/

/-- The `options` object accepted by the `AutonomousRecovery` constructor;
`none` models an absent property. -/
structure RecoveryOptions where
  maxRetries : Option Nat := none
  retryDelay : Option Nat := none
  exponentialBackoff : Option Bool := none
  maxHistorySize : Option Nat := none

/-- JS `x || d` for a possibly-absent numeric option: an absent or zero
(falsy) value yields the default. -/
def jsOrNat (x : Option Nat) (d : Nat) : Nat :=
  match x with
  | some v => if v = 0 then d else v
  | none => d

/-- One entry of `this.errorHistory` (`recordError`, lines 616–622).  The
caller-supplied context bag and the stack are opaque strings here. -/
structure ErrorRecord where
  timestamp : String
  message : String
  errType : ErrorType
  context : String
  stack : String
deriving DecidableEq, Repr

/-- The mutable fields of an `AutonomousRecovery` instance. -/
structure Recovery where
  maxRetries : Nat
  retryDelay : Nat
  exponentialBackoff : Bool
  maxHistorySize : Nat
  errorHistory : List ErrorRecord
deriving DecidableEq, Repr

/-- The constructor (lines 11–19): `maxRetries` defaults to 5,
`retryDelay` to 2000 ms, `maxHistorySize` to 100; backoff is enabled
unless `exponentialBackoff` is literally `false`
(`options.exponentialBackoff !== false`). -/
def Recovery.create (options : RecoveryOptions) : Recovery where
  maxRetries := jsOrNat options.maxRetries 5
  retryDelay := jsOrNat options.retryDelay 2000
  exponentialBackoff := options.exponentialBackoff != some false
  maxHistorySize := jsOrNat options.maxHistorySize 100
  errorHistory := []

/-! ## The retry loop (`executeRecoveryStrategy`, lines 197–238)

A strategy handler either resolves to `{success:true, message, data}`,
resolves to `{success:false, error?}`, or throws.  Its behaviour on the
k-th attempt is supplied as an oracle indexed by the (1-based) attempt
number, which captures every possible behaviour of the bound JS handler
and of the external world it talks to. -/

inductive HandlerResult where
  | ok (message data : String)
  | fail (error : Option String)
  | thrown (message : String)
deriving DecidableEq, Repr

def HandlerResult.isOk : HandlerResult → Bool
  | .ok _ _ => true
  | _ => false

/-- The value `executeRecoveryStrategy` resolves to: either
`{success:true, attempts, message, data}` or
`{success:false, attempts, error, message:'Maximum retry attempts exceeded'}`. -/
inductive ExecOutcome where
  | ok (attempts : Nat) (message data : String)
  | failed (attempts : Nat) (error : String)
deriving DecidableEq, Repr

def ExecOutcome.attempts : ExecOutcome → Nat
  | .ok a _ _ => a
  | .failed a _ => a

def ExecOutcome.isFailed : ExecOutcome → Bool
  | .ok _ _ _ => false
  | .failed _ _ => true

/-- The delay computed at the bottom of each loop iteration (lines
224–226), where `attempts` is the 1-based number of the attempt that just
finished: `retryDelay * 2^(attempts-1)` with backoff, else `retryDelay`. -/
def computeDelay (r : Recovery) (attempts : Nat) : Nat :=
  if r.exponentialBackoff then r.retryDelay * 2 ^ (attempts - 1) else r.retryDelay

/-- The `while (attempts < maxRetries)` loop of `executeRecoveryStrategy`,
with `fuel` the number of remaining iterations and `attempts` the number
already performed.  Besides the outcome it returns the trace of sleeps, in
order: the i-th trace entry is the delay slept after attempt
`attempts+i` (so before attempt `attempts+i+1` when one follows).  A
successful attempt returns immediately without sleeping; a failed or
throwing attempt replaces the last error and sleeps — including on the
very last iteration, before the failure object is returned. -/
def execLoop (r : Recovery) (handler : Nat → HandlerResult) :
    JsError → Nat → Nat → ExecOutcome × List Nat
  | lastError, attempts, 0 => (.failed attempts lastError.message, [])
  | lastError, attempts, fuel + 1 =>
    let a := attempts + 1
    match handler a with
    | .ok message data => (.ok a message data, [])
    | .fail err =>
      let lastError' : JsError := { message := err.getD "Recovery attempt failed" }
      let rest := execLoop r handler lastError' a fuel
      (rest.1, computeDelay r a :: rest.2)
    | .thrown message =>
      let lastError' : JsError := { message := message }
      let rest := execLoop r handler lastError' a fuel
      (rest.1, computeDelay r a :: rest.2)

/-- Model of `AutonomousRecovery.executeRecoveryStrategy` (lines 197–238): run the
loop with `maxRetries` fuel from zero attempts, together with its sleep
trace. -/
def executeRecoveryStrategy (r : Recovery) (handler : Nat → HandlerResult)
    (error : JsError) : ExecOutcome × List Nat :=
  execLoop r handler error 0 r.maxRetries

/-! ## Error history (`recordError`, lines 615–630) -/

/-- Model of `AutonomousRecovery.recordError`: push one record, then if the history
exceeds `maxHistorySize` keep only the last `maxHistorySize` entries
(JS `slice(-max)`), evicting the oldest first. -/
def recordError (r : Recovery) (error : JsError) (context timestamp stack : String)
    (errorType : ErrorType) : Recovery :=
  let record : ErrorRecord :=
    { timestamp := timestamp, message := error.message, errType := errorType,
      context := context, stack := stack }
  let h := r.errorHistory ++ [record]
  let h := if r.maxHistorySize < h.length then h.drop (h.length - r.maxHistorySize) else h
  { r with errorHistory := h }

/-! ## The recovery entry point (`attemptRecovery`, lines 24–80) -/

/-- Strategy-table entry (`initializeRecoveryStrategies`, lines 144–192):
a display name and the handler oracle. -/
structure Strategy where
  name : String
  handler : Nat → HandlerResult

/-- The display names the source installs, one per error type. -/
def strategyName : ErrorType → String
  | .authentication_error => "Authentication Recovery"
  | .authorization_error => "Authorization Recovery"
  | .captcha_error => "CAPTCHA Recovery"
  | .membership_error => "Membership Recovery"
  | .network_error => "Network Recovery"
  | .content_error => "Content Recovery"
  | .rate_limit_error => "Rate Limit Recovery"
  | .server_error => "Server Recovery"
  | .unknown_error => "Generic Recovery"

/-- Model of `initializeRecoveryStrategies` (lines 144–192) installs a strategy for
every one of the nine error types; the lookup `recoveryStrategies[type]`
can therefore never miss, but `attemptRecovery` still guards for it, so
the table is modelled as optionally-populated. -/
def initializeRecoveryStrategies (oracle : ErrorType → Nat → HandlerResult) :
    ErrorType → Option Strategy :=
  fun t => some { name := strategyName t, handler := oracle t }

/-- The object `attemptRecovery` resolves to, with exactly the fields the
source puts on each of its return paths (`none` models an absent field). -/
structure AttemptOutcome where
  success : Bool
  error : Option String := none
  recoveryAttempted : Option Bool := none
  message : Option String := none
  recoveryMethod : Option String := none
  attempts : Option Nat := none
  data : Option String := none
deriving DecidableEq, Repr

/-- Model of `AutonomousRecovery.attemptRecovery` (lines 24–80): classify, record
the error in the history, look up the strategy (returning the
no-strategy object if absent), run the retry loop, and package the result;
returns the outcome object together with the updated engine state. -/
def attemptRecovery (r : Recovery) (strategies : ErrorType → Option Strategy)
    (error : JsError) (context timestamp stack : String) :
    AttemptOutcome × Recovery :=
  let errorType := classifyError error
  let r := recordError r error context timestamp stack errorType
  match strategies errorType with
  | none =>
    ({ success := false, error := some error.message, recoveryAttempted := some false,
       message := some "No recovery strategy available for this error type" }, r)
  | some strategy =>
    match (executeRecoveryStrategy r strategy.handler error).1 with
    | .ok _ message data =>
      ({ success := true, recoveryMethod := some strategy.name,
         message := some message, data := some data }, r)
    | .failed attempts err =>
      ({ success := false, error := some err, recoveryMethod := some strategy.name,
         attempts := some attempts,
         message := some "Recovery failed after maximum attempts" }, r)

/-! ## The Credential Vault (`AgentManager`)

The vault file `agents.json` holds `{ agents: { email: Agent, ... } }`.
A JS object literal is modelled as an association list keyed by email, in
insertion order (assigning to an existing key replaces in place, a new key
is appended, exactly as JS object semantics). -/

inductive AgentStatus where
  | pending_registration
  | registered
  | active
deriving DecidableEq, Repr

/-- The `credentials` sub-object set by `registerWordPressAccount`:
`{ username, appPassword }`, where `appPassword` starts out `null`. -/
structure AgentCredentials where
  username : String
  appPassword : Option String
deriving DecidableEq, Repr

/-- One agent record as created by `registerAgent` and mutated by the
later steps; `wordpressUsername` is absent until WordPress registration
succeeds. -/
structure Agent where
  email : String
  agentName : String
  wordpressUrl : String
  password : String
  createdAt : String
  status : AgentStatus
  credentials : Option AgentCredentials
  wordpressUsername : Option String
deriving DecidableEq, Repr

/-- The spec's `derivedCredential` of an Agent: the application password
stored inside `credentials` (null while `credentials` is null or its
`appPassword` is null). -/
def Agent.derivedCredential (a : Agent) : Option String :=
  a.credentials.bind (fun c => c.appPassword)

/-- The in-memory form of the `agents` map of `agents.json`. -/
abbrev AgentsFile := List (String × Agent)

/-- JS `agents.agents[email]` read. -/
def lookupAgent (m : AgentsFile) (email : String) : Option Agent :=
  (m.find? (fun p => p.1 = email)).map (fun p => p.2)

/-- JS `agents.agents[email] = agent` write: replace in place when the key
exists, append otherwise. -/
def setAgent (m : AgentsFile) (email : String) (a : Agent) : AgentsFile :=
  if (m.find? (fun p => p.1 = email)).isSome then
    m.map (fun p => if p.1 = email then (email, a) else p)
  else
    m ++ [(email, a)]

/-- JS `email.split('@')[0]` (used as the WordPress username). -/
def emailUserPart (email : String) : String :=
  (email.splitOn "@").headD ""

/-- Model of `AgentManager.registerAgent` (agent-manager source, lines 81–127):
fails (map unchanged) when the email is already present; otherwise stores
a fresh record in status `pending_registration` with `credentials: null`.
The randomly generated password and the clock reading are oracle inputs. -/
def registerAgent (m : AgentsFile) (email agentName wordpressUrl password createdAt : String) :
    AgentsFile × Except String Agent :=
  match lookupAgent m email with
  | some _ => (m, .error ("Agent with email " ++ email ++ " already exists"))
  | none =>
    let agent : Agent :=
      { email := email, agentName := agentName, wordpressUrl := wordpressUrl,
        password := password, createdAt := createdAt,
        status := .pending_registration, credentials := none,
        wordpressUsername := none }
    (setAgent m email agent, .ok agent)

/-- Model of `AgentManager.registerWordPressAccount` (lines 129–201): fails when
the agent is unknown; on a successful remote registration (the remote
call's outcome is the oracle `remote`, whose error value is the message
the source maps the HTTP failure to) moves the agent to `registered`,
records the WordPress username and installs `credentials` with a null
`appPassword`; on a failed remote call the stored record is untouched and
the error propagates. -/
def registerWordPressAccount (m : AgentsFile) (email : String)
    (remote : Except String Unit) : AgentsFile × Except String Unit :=
  match lookupAgent m email with
  | none => (m, .error ("Agent " ++ email ++ " not found"))
  | some agent =>
    match remote with
    | .error e => (m, .error e)
    | .ok _ =>
      let user := emailUserPart email
      let agent' := { agent with
        status := .registered,
        wordpressUsername := some user,
        credentials := some { username := user, appPassword := none } }
      (setAgent m email agent', .ok ())

/-- Model of `AgentManager.generateApplicationPassword` (lines 203–236): requires
the agent to exist and have a `credentials` object; then reuses the
agent's main password as the application password and moves the agent to
`active`. -/
def generateApplicationPassword (m : AgentsFile) (email : String) :
    AgentsFile × Except String String :=
  match lookupAgent m email with
  | none => (m, .error ("Agent " ++ email ++ " not found or not registered"))
  | some agent =>
    match agent.credentials with
    | none => (m, .error ("Agent " ++ email ++ " not found or not registered"))
    | some creds =>
      let appPassword := agent.password
      let agent' := { agent with
        credentials := some { creds with appPassword := some appPassword },
        status := .active }
      (setAgent m email agent', .ok appPassword)

/-- The credentials view returned by `getAgentCredentials`. -/
structure CredentialsView where
  username : String
  appPassword : Option String
  siteUrl : String
deriving DecidableEq, Repr

/-- Model of `AgentManager.getAgentCredentials` (lines 238–266): read-only; errors
unless the agent exists, is `active`, and carries a `credentials` object. -/
def getAgentCredentials (m : AgentsFile) (email : String) : Except String CredentialsView :=
  match lookupAgent m email with
  | none => .error ("Agent " ++ email ++ " not found")
  | some agent =>
    match agent.credentials with
    | some creds =>
      if agent.status = .active then
        .ok { username := creds.username, appPassword := creds.appPassword,
              siteUrl := agent.wordpressUrl }
      else .error ("Agent " ++ email ++ " is not active or missing credentials")
    | none => .error ("Agent " ++ email ++ " is not active or missing credentials")

/-! ## Vault operation sequences (for the derived-credential invariant) -/

/-- One invocation of a state-mutating `AgentManager` operation, with its
oracle inputs. -/
inductive VaultOp where
  | register (email agentName wordpressUrl password createdAt : String)
  | wpRegister (email : String) (remote : Except String Unit)
  | genAppPassword (email : String)

/-- Effect of one operation on the stored map (the operation's returned
value is irrelevant to the stored state). -/
def runVaultOp (m : AgentsFile) : VaultOp → AgentsFile
  | .register email agentName wordpressUrl password createdAt =>
    (registerAgent m email agentName wordpressUrl password createdAt).1
  | .wpRegister email remote => (registerWordPressAccount m email remote).1
  | .genAppPassword email => (generateApplicationPassword m email).1

/-- Effect of a sequence of operations, first to last. -/
def runVaultOps (ops : List VaultOp) (m : AgentsFile) : AgentsFile :=
  ops.foldl runVaultOp m

/-- The spec's Agent invariant: the derived credential is non-null exactly
when the agent is `active`. -/
def VaultInvariant (m : AgentsFile) : Prop :=
  ∀ p ∈ m, (p.2.derivedCredential ≠ none ↔ p.2.status = .active)

/-- The empty store written by `ensureVaultExists` (`{ agents: {} }`). -/
def emptyAgents : AgentsFile := []

/-! ## Vault persistence (`loadAgents` / `saveAgents`) and JSON round trip

`saveAgents` runs `JSON.stringify` and writes the file; `loadAgents`
reads the file and runs `JSON.parse`.  The stringify/parse pair is
faithful on JSON value trees, so persistence is modelled at the level of a
JSON value: the file content is a `Json`, reading yields either that value
or an I/O error, and writing either succeeds or throws. -/

inductive Json where
  | null
  | str (s : String)
  | obj (fields : List (String × Json))

/-- Field lookup in a JSON object (first match, as in JS). -/
def Json.getField (j : Json) (key : String) : Option Json :=
  match j with
  | .obj fields => (fields.find? (fun p => p.1 = key)).map (fun p => p.2)
  | _ => none

def statusToString : AgentStatus → String
  | .pending_registration => "pending_registration"
  | .registered => "registered"
  | .active => "active"

def statusFromString (s : String) : Option AgentStatus :=
  if s = "pending_registration" then some .pending_registration
  else if s = "registered" then some .registered
  else if s = "active" then some .active
  else none

def encodeOptStr : Option String → Json
  | none => .null
  | some s => .str s

def decodeOptStr : Json → Option (Option String)
  | .null => some none
  | .str s => some (some s)
  | .obj _ => none

def encodeCredentials (c : AgentCredentials) : Json :=
  .obj [("username", .str c.username), ("appPassword", encodeOptStr c.appPassword)]

def decodeCredentials (j : Json) : Option AgentCredentials := do
  let .str u ← j.getField "username" | none
  let ap ← j.getField "appPassword" >>= decodeOptStr
  pure { username := u, appPassword := ap }

/-- Serialization of one agent record, field for field as constructed by
the source (the `wordpressUsername` key is present only once set). -/
def encodeAgent (a : Agent) : Json :=
  .obj ([("email", .str a.email), ("agentName", .str a.agentName),
         ("wordpressUrl", .str a.wordpressUrl), ("password", .str a.password),
         ("createdAt", .str a.createdAt),
         ("status", .str (statusToString a.status)),
         ("credentials", match a.credentials with
                         | none => .null
                         | some c => encodeCredentials c)] ++
        (match a.wordpressUsername with
         | none => []
         | some u => [("wordpressUsername", .str u)]))

def decodeAgent (j : Json) : Option Agent := do
  let .str email ← j.getField "email" | none
  let .str agentName ← j.getField "agentName" | none
  let .str wordpressUrl ← j.getField "wordpressUrl" | none
  let .str password ← j.getField "password" | none
  let .str createdAt ← j.getField "createdAt" | none
  let .str statusStr ← j.getField "status" | none
  let status ← statusFromString statusStr
  let credentials ←
    match j.getField "credentials" with
    | some .null => some none
    | some c => (decodeCredentials c).map some
    | none => none
  let wordpressUsername ←
    match j.getField "wordpressUsername" with
    | none => some none
    | some (.str u) => some (some u)
    | some _ => none
  pure { email := email, agentName := agentName, wordpressUrl := wordpressUrl,
         password := password, createdAt := createdAt, status := status,
         credentials := credentials, wordpressUsername := wordpressUsername }

def encodeAgentsFile (m : AgentsFile) : Json :=
  .obj [("agents", .obj (m.map (fun p => (p.1, encodeAgent p.2))))]

def decodeAgentEntries : List (String × Json) → Option AgentsFile
  | [] => some []
  | (k, j) :: rest => do
    let a ← decodeAgent j
    let tail ← decodeAgentEntries rest
    pure ((k, a) :: tail)

def decodeAgentsFile (j : Json) : Option AgentsFile := do
  let .obj entries ← j.getField "agents" | none
  decodeAgentEntries entries

/-- Model of `AgentManager.saveAgents` (lines 278–285): serialize and write; a
write failure is logged and rethrown (`throw error`), never retried.  The
result is the written file content, or the propagated write error. -/
def saveAgents (m : AgentsFile) (io : Except String Unit) : Except String Json :=
  match io with
  | .ok _ => .ok (encodeAgentsFile m)
  | .error e => .error e

/-- Model of `AgentManager.loadAgents` (lines 268–276): read and parse inside a
try/catch whose handler logs and returns the default `{ agents: {} }` —
a read or parse failure is absorbed, not propagated.  The input is the
outcome of read-plus-parse; an ill-shaped (but parseable) file cannot
arise from this program, whose only writer is `saveAgents`, and is mapped
to the same default. -/
def loadAgents (io : Except String Json) : AgentsFile :=
  match io with
  | .ok j => (decodeAgentsFile j).getD []
  | .error _ => []

/-! ## The provisioning pipeline (`EnhancedBuddyClaw.registerAndPublish`,
`enhanced-poster.js` lines 186–259) -/

/-- The result object of `registerAndPublish` as far as the pipeline shape
is concerned: the final publish result (an oracle here) or the catch-all
failure object `{success:false, error: 'Registration and publishing
failed: ...'}`. -/
structure PublishResult where
  success : Bool
  error : Option String := none
  auth_method : Option String := none
deriving DecidableEq, Repr

/-- JS `s || d` on strings: empty string is falsy. -/
def jsOrStr (s d : String) : String := if s = "" then d else s

/-- Model of `registerAndPublish`: register the agent (a failure here throws and is
caught, producing the catch-all failure object and leaving the vault as
the failed step left it); then attempt WordPress registration (a failure
is only logged); then poll for an email verification link and click it
(outcomes `verifFound`/`clickOk` — only logged); then generate the
application password and fetch the final credentials (failures throw);
finally publish (oracle `publishOk`).  Returns the final vault state and
the result object. -/
def registerAndPublish (m : AgentsFile) (agentEmail siteBaseUrl : String)
    (password createdAt : String) (wpRemote : Except String Unit)
    (verifFound : Option String) (clickOk : Bool) (publishOk : Bool) :
    AgentsFile × PublishResult :=
  let agentName := jsOrStr (emailUserPart agentEmail) "Agent"
  let (m1, r1) := registerAgent m agentEmail agentName siteBaseUrl password createdAt
  match r1 with
  | .error e =>
    (m1, { success := false,
           error := some ("Registration and publishing failed: Agent registration failed: " ++ e) })
  | .ok _ =>
    let (m2, _r2) := registerWordPressAccount m1 agentEmail wpRemote
    let _ := verifFound
    let _ := clickOk
    let (m3, r3) := generateApplicationPassword m2 agentEmail
    match r3 with
    | .error e =>
      (m3, { success := false,
             error := some ("Registration and publishing failed: Application password generation failed: " ++ e) })
    | .ok _ =>
      match getAgentCredentials m3 agentEmail with
      | .error e =>
        (m3, { success := false,
               error := some ("Registration and publishing failed: Failed to retrieve final credentials: " ++ e) })
      | .ok _creds =>
        if publishOk then
          (m3, { success := true, auth_method := some "multi_agent" })
        else
          (m3, { success := false, error := some "Publish failed",
                 auth_method := some "multi_agent" })

/-! ## The mail verification poller
(`EmailVerifier.checkEmailVerification`, `email-verifier.js` lines 21–61) -/

/-- Outcome of one `searchForEmail` poll: a matching envelope (with the
extracted verification link, possibly null), no match yet, or a thrown
error (mailbox tool failure). -/
inductive PollResult where
  | found (email : String) (verificationLink : Option String) (subject : String)
  | notFound
  | err (message : String)
deriving DecidableEq, Repr

def PollResult.isFound : PollResult → Bool
  | .found _ _ _ => true
  | _ => false

/-- The object `checkEmailVerification` resolves to: success with the
envelope data, or `{success:false, error, attempts}` after the deadline. -/
inductive VerifyOutcome where
  | ok (email : String) (verificationLink : Option String) (subject foundAt : String)
  | timedOut (error : String) (attempts : Nat)
deriving DecidableEq, Repr

/-- The timeout failure message (`No verification email found within
${timeout/1000} seconds`). -/
def verifyTimeoutMsg (timeout : Nat) : String :=
  "No verification email found within " ++ toString (timeout / 1000) ++ " seconds"

/-- The `while (Date.now() - startTime < timeout)` loop: each iteration
performs one poll (the k-th poll outcome is `poll k`); a match returns
immediately; no match or a thrown poll error (caught by the loop's
try/catch) sleeps one `checkInterval` and continues.  Time is advanced by
exactly the sleeps, so `elapsed` is the time consumed so far; `attempts`
counts polls performed.  The positive interval makes the loop terminate. -/
def checkLoop (poll : Nat → PollResult) (interval timeout : Nat)
    (hpos : 0 < interval) (foundAt : String) (elapsed attempts : Nat) : VerifyOutcome :=
  if h : elapsed < timeout then
    match poll (attempts + 1) with
    | .found email link subject => .ok email link subject foundAt
    | .notFound => checkLoop poll interval timeout hpos foundAt (elapsed + interval) (attempts + 1)
    | .err _ => checkLoop poll interval timeout hpos foundAt (elapsed + interval) (attempts + 1)
  else
    .timedOut (verifyTimeoutMsg timeout) attempts
termination_by timeout - elapsed
decreasing_by
  all_goals omega

/-- Model of `EmailVerifier.checkEmailVerification`: run the polling loop from time
zero with zero attempts (default timeout 30000 ms, default interval
5000 ms; `foundAt` is the clock oracle for the success field). -/
def checkEmailVerification (poll : Nat → PollResult) (timeout interval : Nat)
    (hpos : 0 < interval) (foundAt : String) : VerifyOutcome :=
  checkLoop poll interval timeout hpos foundAt 0 0

/-! ## Outcome-shape predicates (spec §7: `Recovered` / `ExhaustedRetries`
/ `NoStrategy`) -/

/-- The outcome object of a successful recovery: `success:true` with the
strategy name, a message and the recovered data. -/
def IsRecoveredOutcome (o : AttemptOutcome) : Prop :=
  o.success = true ∧ o.recoveryMethod ≠ none ∧ o.message ≠ none ∧ o.data ≠ none

/-- The outcome object of an exhausted retry loop: `success:false` with
the last error and the attempt count. -/
def IsExhaustedOutcome (o : AttemptOutcome) : Prop :=
  o.success = false ∧ o.error ≠ none ∧ o.recoveryMethod ≠ none ∧ o.attempts ≠ none

/-- The outcome object returned when no strategy exists for the
classified kind. -/
def IsNoStrategyOutcome (o : AttemptOutcome) : Prop :=
  o.success = false ∧ o.recoveryAttempted = some false ∧
  o.message = some "No recovery strategy available for this error type"

/-! ## Concrete fixtures used by witnesses and counterexamples -/

/-- A handler whose every attempt resolves to `{success:false}`. -/
def alwaysFailHandler : Nat → HandlerResult := fun _ => .fail none

/-- An already-provisioned (`active`) agent record. -/
def activeAgentX : Agent :=
  { email := "a@x.com", agentName := "a", wordpressUrl := "https://x.com",
    password := "pw", createdAt := "t0", status := .active,
    credentials := some { username := "a", appPassword := some "pw" },
    wordpressUsername := some "a" }

/-- A mailbox oracle whose first poll throws (the mailbox tool failed),
whose second poll finds the verification message, and which would find
nothing afterwards. -/
def pollErrThenFound : Nat → PollResult := fun k =>
  if k = 1 then .err "Failed to spawn Himalaya: ENOENT"
  else if k = 2 then .found "env-2" (some "https://x.com/wp-activate.php?key=k") "WordPress"
  else .notFound

/-! # Theorems -/

/-! ## String lemmas -/

theorem strLower_data (s : String) : (strLower s).data = s.data.map Char.toLower := rfl

/-- Substring containment survives lower-casing whenever the needle is
itself fixed by lower-casing (true of every keyword the classifier
uses). -/
theorem strIncludes_strLower {s sub : String}
    (hsub : sub.data.map Char.toLower = sub.data)
    (h : strIncludes s sub = true) : strIncludes (strLower s) sub = true := by
  have hinf : sub.data <:+: s.data := of_decide_eq_true h
  obtain ⟨pre, post, hpp⟩ := hinf
  apply decide_eq_true
  refine ⟨pre.map Char.toLower, post.map Char.toLower, ?_⟩
  rw [strLower_data, ← hpp]
  simp [hsub]

/-! ## Retry-loop lemmas -/

/-- The loop performs at most `attempts + fuel` attempts in total. -/
theorem execLoop_attempts_le (r : Recovery) (handler : Nat → HandlerResult) :
    ∀ (fuel : Nat) (e : JsError) (attempts : Nat),
    ((execLoop r handler e attempts fuel).1).attempts ≤ attempts + fuel := by
  intro fuel
  induction fuel with
  | zero =>
    intro e attempts
    simp [execLoop, ExecOutcome.attempts]
  | succ n ih =>
    intro e attempts
    rcases hh : handler (attempts + 1) with ⟨m, d⟩ | err | m
    · simp [execLoop, hh, ExecOutcome.attempts]
    · have := ih { message := err.getD "Recovery attempt failed" } (attempts + 1)
      simp only [execLoop, hh]
      omega
    · have := ih { message := m } (attempts + 1)
      simp only [execLoop, hh]
      omega

/-- The i-th recorded sleep (0-based) is the delay computed after attempt
`attempts + 1 + i`. -/
theorem execLoop_delays_getD (r : Recovery) (handler : Nat → HandlerResult) :
    ∀ (fuel : Nat) (e : JsError) (attempts i : Nat),
    i < (execLoop r handler e attempts fuel).2.length →
    (execLoop r handler e attempts fuel).2.getD i 0 = computeDelay r (attempts + 1 + i) := by
  intro fuel
  induction fuel with
  | zero =>
    intro e attempts i hi
    simp [execLoop] at hi
  | succ n ih =>
    intro e attempts i hi
    rcases hh : handler (attempts + 1) with ⟨m, d⟩ | err | m
    · simp [execLoop, hh] at hi
    · simp only [execLoop, hh] at hi ⊢
      match i with
      | 0 => simp
      | i + 1 =>
        simp only [List.getD_cons_succ, List.length_cons] at hi ⊢
        have := ih { message := err.getD "Recovery attempt failed" } (attempts + 1) i (by omega)
        rw [this]
        congr 1
        omega
    · simp only [execLoop, hh] at hi ⊢
      match i with
      | 0 => simp
      | i + 1 =>
        simp only [List.getD_cons_succ, List.length_cons] at hi ⊢
        have := ih { message := m } (attempts + 1) i (by omega)
        rw [this]
        congr 1
        omega

/-- When no attempt ever succeeds the loop consumes all its fuel,
reports the full attempt count, and sleeps once per attempt — the last
sleep included. -/
theorem execLoop_exhaust (r : Recovery) (handler : Nat → HandlerResult)
    (hfail : ∀ k, (handler k).isOk = false) :
    ∀ (fuel : Nat) (e : JsError) (attempts : Nat),
    ∃ msg, execLoop r handler e attempts fuel =
      (.failed (attempts + fuel) msg,
       (List.range fuel).map (fun i => computeDelay r (attempts + 1 + i))) := by
  intro fuel
  induction fuel with
  | zero =>
    intro e attempts
    exact ⟨e.message, by simp [execLoop]⟩
  | succ n ih =>
    intro e attempts
    have hrange : (List.range (n + 1)).map (fun i => computeDelay r (attempts + 1 + i))
        = computeDelay r (attempts + 1)
          :: (List.range n).map (fun i => computeDelay r (attempts + 1 + 1 + i)) := by
      rw [List.range_succ_eq_map, List.map_cons, List.map_map]
      refine congrArg₂ _ (by simp) ?_
      refine List.map_congr_left ?_
      intro i _
      simp only [Function.comp_apply]
      congr 1
      omega
    rcases hh : handler (attempts + 1) with ⟨m, d⟩ | err | m
    · exact absurd (hfail (attempts + 1)) (by simp [hh, HandlerResult.isOk])
    · obtain ⟨msg, hmsg⟩ := ih { message := err.getD "Recovery attempt failed" } (attempts + 1)
      refine ⟨msg, ?_⟩
      simp only [execLoop, hh, hmsg, hrange]
      rw [show attempts + 1 + n = attempts + (n + 1) from by omega]
    · obtain ⟨msg, hmsg⟩ := ih { message := m } (attempts + 1)
      refine ⟨msg, ?_⟩
      simp only [execLoop, hh, hmsg, hrange]
      rw [show attempts + 1 + n = attempts + (n + 1) from by omega]

/-! ## Claim C1 -/

/-- Claim C1, counterexample.  The claim states that with exponential
backoff enabled the delay slept before attempt k (2 ≤ k ≤ maxRetries)
is baseDelay * 2^(k-1).  With the default configuration (maxRetries 5,
baseDelay 2000 ms, backoff on) and a handler that always fails, every
attempt 2..5 takes place (the sleep trace has five entries), yet the
delay slept before attempt 2 — the trace entry at index 0, emitted at
the end of the loop iteration of attempt 1 — is 2000 ms, not
2000 * 2^(2-1) = 4000 ms. -/
theorem claim_C1_counterexample :
    (executeRecoveryStrategy (Recovery.create {}) alwaysFailHandler { message := "boom" }).2.length = 5
    ∧ (executeRecoveryStrategy (Recovery.create {}) alwaysFailHandler { message := "boom" }).2.getD 0 0 = 2000
    ∧ (Recovery.create {}).retryDelay * 2 ^ (2 - 1) = 4000
    ∧ (2000 : Nat) ≠ 4000 := by
  refine ⟨by decide, by decide, by decide, by decide⟩

/-- Claim C1, amended.  For every configuration, handler behaviour and
error: `executeRecoveryStrategy` performs at most `maxRetries` handler
attempts (default 5); with exponential backoff the delay slept after
attempt k — which is the delay slept before attempt k+1 whenever a
(k+1)-th attempt follows — equals baseDelay * 2^(k-1) (trace entry
index i holds baseDelay * 2^i, i = k-1; default base 2000 ms), so the
delay before attempt k is baseDelay * 2^(k-2), not baseDelay * 2^(k-1);
with backoff disabled every slept delay is the constant baseDelay. -/
theorem claim_C1_amended (r : Recovery) (handler : Nat → HandlerResult) (e : JsError) :
    (executeRecoveryStrategy r handler e).1.attempts ≤ r.maxRetries
    ∧ (r.exponentialBackoff = true →
        ∀ i, i < (executeRecoveryStrategy r handler e).2.length →
          (executeRecoveryStrategy r handler e).2.getD i 0 = r.retryDelay * 2 ^ i)
    ∧ (r.exponentialBackoff = false →
        ∀ i, i < (executeRecoveryStrategy r handler e).2.length →
          (executeRecoveryStrategy r handler e).2.getD i 0 = r.retryDelay)
    ∧ (Recovery.create {}).maxRetries = 5 ∧ (Recovery.create {}).retryDelay = 2000 := by
  refine ⟨?_, ?_, ?_, by decide, by decide⟩
  · have := execLoop_attempts_le r handler r.maxRetries e 0
    simpa [executeRecoveryStrategy] using this
  · intro hb i hi
    have := execLoop_delays_getD r handler r.maxRetries e 0 i hi
    simp only [executeRecoveryStrategy] at this ⊢
    rw [this, computeDelay, if_pos hb]
    simp
  · intro hb i hi
    have := execLoop_delays_getD r handler r.maxRetries e 0 i hi
    simp only [executeRecoveryStrategy] at this ⊢
    rw [this, computeDelay, if_neg (by simp [hb])]

/-- Claim C1, witness: with the default configuration and an
always-failing handler, the delay recorded after attempt 2 (trace index
1) is 2000 * 2^1 = 4000 ms. -/
theorem claim_C1_amended_witness :
    (executeRecoveryStrategy (Recovery.create {}) alwaysFailHandler { message := "boom" }).2.getD 1 0
      = (Recovery.create {}).retryDelay * 2 ^ 1 :=
  (claim_C1_amended (Recovery.create {}) alwaysFailHandler { message := "boom" }).2.1
    (by decide) 1 (by decide)

/-! ## Claim C10 -/

/-- Claim C10, confirmed.  When every one of the `maxRetries` attempts
fails and backoff is enabled, the loop still sleeps the full backoff
delay of the final attempt — baseDelay * 2^(maxRetries-1), the last of
the `maxRetries` trace entries — after that last failed attempt and
before the exhausted-retries failure is returned. -/
theorem claim_C10_final_delay_slept (r : Recovery) (handler : Nat → HandlerResult)
    (e : JsError) (hfail : ∀ k, (handler k).isOk = false) (hpos : 0 < r.maxRetries)
    (hb : r.exponentialBackoff = true) :
    (executeRecoveryStrategy r handler e).1.isFailed = true
    ∧ (executeRecoveryStrategy r handler e).1.attempts = r.maxRetries
    ∧ (executeRecoveryStrategy r handler e).2.length = r.maxRetries
    ∧ (executeRecoveryStrategy r handler e).2.getD (r.maxRetries - 1) 0
        = r.retryDelay * 2 ^ (r.maxRetries - 1) := by
  obtain ⟨msg, hrun⟩ := execLoop_exhaust r handler hfail r.maxRetries e 0
  have hlen : (executeRecoveryStrategy r handler e).2.length = r.maxRetries := by
    simp only [executeRecoveryStrategy]
    rw [hrun]
    simp
  refine ⟨?_, ?_, hlen, ?_⟩
  · simp only [executeRecoveryStrategy]
    rw [hrun]
    simp [ExecOutcome.isFailed]
  · simp only [executeRecoveryStrategy]
    rw [hrun]
    simp [ExecOutcome.attempts]
  · have hi : r.maxRetries - 1 < (executeRecoveryStrategy r handler e).2.length := by
      rw [hlen]; omega
    have := execLoop_delays_getD r handler r.maxRetries e 0 (r.maxRetries - 1)
      (by simpa [executeRecoveryStrategy] using hi)
    simp only [executeRecoveryStrategy] at this ⊢
    rw [this, computeDelay, if_pos hb]
    congr 2
    omega

/-- Claim C10, witness: at the default configuration with an
always-failing handler, the run fails after 5 attempts, sleeps 5 times,
and the final recorded sleep is 2000 * 2^4 = 32000 ms. -/
theorem claim_C10_final_delay_slept_witness :
    (executeRecoveryStrategy (Recovery.create {}) alwaysFailHandler { message := "boom" }).1.isFailed = true
    ∧ (executeRecoveryStrategy (Recovery.create {}) alwaysFailHandler { message := "boom" }).1.attempts
        = (Recovery.create {}).maxRetries
    ∧ (executeRecoveryStrategy (Recovery.create {}) alwaysFailHandler { message := "boom" }).2.length
        = (Recovery.create {}).maxRetries
    ∧ (executeRecoveryStrategy (Recovery.create {}) alwaysFailHandler { message := "boom" }).2.getD
        ((Recovery.create {}).maxRetries - 1) 0
        = (Recovery.create {}).retryDelay * 2 ^ ((Recovery.create {}).maxRetries - 1) :=
  claim_C10_final_delay_slept (Recovery.create {}) alwaysFailHandler { message := "boom" }
    (fun _ => rfl) (by decide) (by decide)

/-! ## Claim C5 -/

/-- Claim C5, confirmed.  For every engine state, strategy table, error
and context, `attemptRecovery` is a total function into structured
outcome objects — it never re-raises: the result is a Recovered object
(success with data), an ExhaustedRetries object (failure carrying the
last error and the attempt count), or a NoStrategy object.  Handler
exceptions (`HandlerResult.thrown`) are absorbed by the loop's try/catch
and can only surface as the last error inside the ExhaustedRetries
object. -/
theorem claim_C5_structured_outcome (r : Recovery) (strategies : ErrorType → Option Strategy)
    (e : JsError) (context timestamp stack : String) :
    IsRecoveredOutcome (attemptRecovery r strategies e context timestamp stack).1
    ∨ IsExhaustedOutcome (attemptRecovery r strategies e context timestamp stack).1
    ∨ IsNoStrategyOutcome (attemptRecovery r strategies e context timestamp stack).1 := by
  simp only [attemptRecovery]
  rcases hs : strategies (classifyError e) with _ | strategy
  · right; right
    simp [IsNoStrategyOutcome]
  · rcases hx : (executeRecoveryStrategy (recordError r e context timestamp stack
        (classifyError e)) strategy.handler e).1 with ⟨a, m, d⟩ | ⟨a, err⟩
    · left
      simp [hx, IsRecoveredOutcome]
    · right; left
      simp [hx, IsExhaustedOutcome]

/-! ## Claim C9 -/

/-- Claim C9, confirmed.  Every invocation of `attemptRecovery` —
whatever the outcome (recovered, exhausted, or no strategy) — appends
exactly one `ErrorRecord` to the history and then truncates to the last
`maxHistorySize` entries (oldest evicted first, as JS `slice(-max)`);
the resulting length is `min (old + 1) maxHistorySize`, hence never
exceeds the capacity, whose default is 100. -/
theorem claim_C9_history_ring_buffer (r : Recovery) (strategies : ErrorType → Option Strategy)
    (e : JsError) (context timestamp stack : String) :
    ((attemptRecovery r strategies e context timestamp stack).2).errorHistory
      = (let h := r.errorHistory ++
          [{ timestamp := timestamp, message := e.message, errType := classifyError e,
             context := context, stack := stack }]
         if r.maxHistorySize < h.length then h.drop (h.length - r.maxHistorySize) else h)
    ∧ ((attemptRecovery r strategies e context timestamp stack).2).errorHistory.length
        = min (r.errorHistory.length + 1) r.maxHistorySize
    ∧ ((attemptRecovery r strategies e context timestamp stack).2).errorHistory.length
        ≤ r.maxHistorySize
    ∧ (Recovery.create {}).maxHistorySize = 100 := by
  have hstate : (attemptRecovery r strategies e context timestamp stack).2
      = recordError r e context timestamp stack (classifyError e) := by
    simp only [attemptRecovery]
    rcases hs : strategies (classifyError e) with _ | strategy
    · rfl
    · dsimp only
      rcases hx : (executeRecoveryStrategy (recordError r e context timestamp stack
          (classifyError e)) strategy.handler e).1 with ⟨a, m, d⟩ | ⟨a, err⟩ <;> rfl
  have hlen : (recordError r e context timestamp stack (classifyError e)).errorHistory.length
      = min (r.errorHistory.length + 1) r.maxHistorySize := by
    simp only [recordError]
    split
    · rename_i hgt
      simp only [List.length_drop, List.length_append, List.length_cons,
        List.length_nil] at hgt ⊢
      omega
    · rename_i hle
      simp only [List.length_append, List.length_cons, List.length_nil] at hle ⊢
      omega
  refine ⟨?_, ?_, ?_, by decide⟩
  · rw [hstate]
    rfl
  · rw [hstate, hlen]
  · rw [hstate, hlen]
    omega

/-! ## Claim C2 -/

/-- Claim C2, counterexample.  The claim states every 5xx status maps to
Server.  An error carrying HTTP status 502 (a 5xx) whose message is the
axios text for that failure is classified `unknown_error`, because
`classifyError` only inspects message keywords ("500", "server",
"internal") and never the numeric status. -/
theorem claim_C2_counterexample :
    (500 ≤ 502 ∧ 502 < 600)
    ∧ classifyError { message := "Request failed with status code 502", status := some 502 }
        = .unknown_error
    ∧ classifyError { message := "Request failed with status code 502", status := some 502 }
        ≠ .server_error := by
  refine ⟨by decide, by decide, by decide⟩

/-- Claim C2, amended.  `classifyError` is total into the nine kinds by
construction.  Every error whose message contains "401" or
"unauthorized" classifies as `authentication_error`; whose message
contains "403" or "forbidden" and matches no earlier rule (on the
lower-cased message) as `authorization_error`; whose message contains
"429" or "rate limit" and matches no earlier rule as
`rate_limit_error`; and whose message contains "500", "server" or
"internal" and matches no earlier rule as `server_error` — a 5xx HTTP
status alone, without one of those message keywords, classifies as
`unknown_error`, not `server_error` (amendment forced by the
counterexample). -/
theorem claim_C2_amended (e : JsError) :
    ((strIncludes e.message "401" = true ∨ strIncludes e.message "unauthorized" = true) →
      classifyError e = .authentication_error)
    ∧ ((strIncludes e.message "403" = true ∨ strIncludes e.message "forbidden" = true) →
        authMatch (strLower e.message) = false →
        classifyError e = .authorization_error)
    ∧ ((strIncludes e.message "429" = true ∨ strIncludes e.message "rate limit" = true) →
        authMatch (strLower e.message) = false →
        authzMatch (strLower e.message) = false →
        captchaMatch (strLower e.message) = false →
        membershipMatch (strLower e.message) = false →
        networkMatch (strLower e.message) e.errorCode = false →
        contentMatch (strLower e.message) = false →
        classifyError e = .rate_limit_error)
    ∧ ((strIncludes e.message "500" = true ∨ strIncludes e.message "server" = true ∨
          strIncludes e.message "internal" = true) →
        authMatch (strLower e.message) = false →
        authzMatch (strLower e.message) = false →
        captchaMatch (strLower e.message) = false →
        membershipMatch (strLower e.message) = false →
        networkMatch (strLower e.message) e.errorCode = false →
        contentMatch (strLower e.message) = false →
        rateLimitMatch (strLower e.message) = false →
        classifyError e = .server_error) := by
  refine ⟨?_, ?_, ?_, ?_⟩
  · intro h
    have hm : authMatch (strLower e.message) = true := by
      rcases h with h | h
      · simp [authMatch, strIncludes_strLower (by decide) h]
      · simp [authMatch, strIncludes_strLower (by decide) h]
    simp [classifyError, hm]
  · intro h h1
    have hm : authzMatch (strLower e.message) = true := by
      rcases h with h | h
      · simp [authzMatch, strIncludes_strLower (by decide) h]
      · simp [authzMatch, strIncludes_strLower (by decide) h]
    simp [classifyError, hm, h1]
  · intro h h1 h2 h3 h4 h5 h6
    have hm : rateLimitMatch (strLower e.message) = true := by
      rcases h with h | h
      · simp [rateLimitMatch, strIncludes_strLower (by decide) h]
      · simp [rateLimitMatch, strIncludes_strLower (by decide) h]
    simp [classifyError, hm, h1, h2, h3, h4, h5, h6]
  · intro h h1 h2 h3 h4 h5 h6 h7
    have hm : serverMatch (strLower e.message) = true := by
      rcases h with h | h | h
      · simp [serverMatch, strIncludes_strLower (by decide) h]
      · simp [serverMatch, strIncludes_strLower (by decide) h]
      · simp [serverMatch, strIncludes_strLower (by decide) h]
    simp [classifyError, hm, h1, h2, h3, h4, h5, h6, h7]

/-- Claim C2, witness: one concrete error per amended clause. -/
theorem claim_C2_amended_witness :
    classifyError { message := "401 Unauthorized" } = .authentication_error
    ∧ classifyError { message := "HTTP 403 Forbidden" } = .authorization_error
    ∧ classifyError { message := "429 rate limit exceeded" } = .rate_limit_error
    ∧ classifyError { message := "500 Internal Server Error" } = .server_error :=
  ⟨(claim_C2_amended { message := "401 Unauthorized" }).1 (Or.inl (by decide)),
   (claim_C2_amended { message := "HTTP 403 Forbidden" }).2.1 (Or.inl (by decide)) (by decide),
   (claim_C2_amended { message := "429 rate limit exceeded" }).2.2.1 (Or.inl (by decide))
     (by decide) (by decide) (by decide) (by decide) (by decide) (by decide),
   (claim_C2_amended { message := "500 Internal Server Error" }).2.2.2 (Or.inl (by decide))
     (by decide) (by decide) (by decide) (by decide) (by decide) (by decide) (by decide)⟩

/-! ## Claim C3 -/

/-- Membership after a store write: the element is the written pair or
was already present. -/
theorem mem_setAgent {m : AgentsFile} {email : String} {a : Agent}
    {p : String × Agent} (hp : p ∈ setAgent m email a) :
    p = (email, a) ∨ p ∈ m := by
  unfold setAgent at hp
  split at hp
  · obtain ⟨q, hq, hfq⟩ := List.mem_map.mp hp
    by_cases hkey : q.1 = email
    · rw [if_pos hkey] at hfq
      exact Or.inl hfq.symm
    · rw [if_neg hkey] at hfq
      exact Or.inr (hfq ▸ hq)
  · rcases List.mem_append.mp hp with h | h
    · exact Or.inr h
    · exact Or.inl (List.mem_singleton.mp h)

/-- Writing an agent that itself satisfies the credential/status
equivalence preserves the invariant. -/
theorem vaultInvariant_setAgent {m : AgentsFile} {email : String} {a : Agent}
    (hm : VaultInvariant m) (ha : a.derivedCredential ≠ none ↔ a.status = .active) :
    VaultInvariant (setAgent m email a) := by
  intro p hp
  rcases mem_setAgent hp with h | h
  · rw [h]
    exact ha
  · exact hm p h

/-- Every single `AgentManager` operation preserves the invariant. -/
theorem vaultInvariant_runVaultOp {m : AgentsFile} (hm : VaultInvariant m)
    (op : VaultOp) : VaultInvariant (runVaultOp m op) := by
  rcases op with ⟨email, agentName, wordpressUrl, password, createdAt⟩ | ⟨email, remote⟩ | email
  · rw [runVaultOp, registerAgent]
    rcases hl : lookupAgent m email with _ | a
    · exact vaultInvariant_setAgent hm (by simp [Agent.derivedCredential])
    · exact hm
  · rw [runVaultOp, registerWordPressAccount]
    rcases hl : lookupAgent m email with _ | a
    · exact hm
    · rcases remote with e | u
      · exact hm
      · exact vaultInvariant_setAgent hm (by simp [Agent.derivedCredential])
  · rw [runVaultOp, generateApplicationPassword]
    rcases hl : lookupAgent m email with _ | a
    · exact hm
    · dsimp only
      rcases hc : a.credentials with _ | creds
      · exact hm
      · exact vaultInvariant_setAgent hm (by simp [Agent.derivedCredential])

/-- The invariant is preserved along any operation sequence. -/
theorem vaultInvariant_runVaultOps {m : AgentsFile} (hm : VaultInvariant m)
    (ops : List VaultOp) : VaultInvariant (runVaultOps ops m) := by
  induction ops generalizing m with
  | nil => exact hm
  | cons op rest ih => exact ih (vaultInvariant_runVaultOp hm op)

/-- Claim C3, confirmed.  Starting from the empty vault written by
`ensureVaultExists`, after any sequence of `registerAgent`,
`registerWordPressAccount` and `generateApplicationPassword`
invocations — with arbitrary identities, oracle inputs and remote
outcomes — every stored Agent record has a non-null derived credential
(`credentials.appPassword`) exactly when its status is `active`. -/
theorem claim_C3_derived_credential_invariant (ops : List VaultOp) :
    VaultInvariant (runVaultOps ops emptyAgents) :=
  vaultInvariant_runVaultOps (fun p hp => absurd hp (List.not_mem_nil p)) ops

/-! ## Claim C4 -/

/-- Claim C4, counterexample.  The claim states that invoking
`registerAndPublish` again for an identity whose Agent is already
`active` is a no-op that returns the stored credential.  With a vault
holding the active agent `a@x.com`, a second invocation does leave the
stored record unchanged, but it returns the failure object produced by
the thrown "already exists" error — not the stored credential:
`success` is `false` and no credential appears in the result. -/
theorem claim_C4_counterexample :
    (registerAndPublish [("a@x.com", activeAgentX)] "a@x.com" "https://x.com"
        "pw2" "t1" (Except.ok ()) none true true).1 = [("a@x.com", activeAgentX)]
    ∧ (registerAndPublish [("a@x.com", activeAgentX)] "a@x.com" "https://x.com"
        "pw2" "t1" (Except.ok ()) none true true).2.success = false
    ∧ (registerAndPublish [("a@x.com", activeAgentX)] "a@x.com" "https://x.com"
        "pw2" "t1" (Except.ok ()) none true true).2.error
        = some "Registration and publishing failed: Agent registration failed: Agent with email a@x.com already exists" := by
  refine ⟨by decide, by decide, by decide⟩

/-- Claim C4, amended.  Re-invoking `registerAndPublish` for any identity
already present in the vault (whatever its status, `active` included)
leaves the stored Agent untouched — it does not re-register — but
returns the failure object wrapping the "Agent already exists" error
instead of the stored credential. -/
theorem claim_C4_amended (m : AgentsFile) (email site password createdAt : String)
    (wpRemote : Except String Unit) (verifFound : Option String) (clickOk publishOk : Bool)
    (a : Agent) (ha : lookupAgent m email = some a) :
    (registerAndPublish m email site password createdAt wpRemote verifFound clickOk publishOk).1 = m
    ∧ (registerAndPublish m email site password createdAt wpRemote verifFound clickOk publishOk).2.success
        = false
    ∧ (registerAndPublish m email site password createdAt wpRemote verifFound clickOk publishOk).2.error
        = some ("Registration and publishing failed: Agent registration failed: "
            ++ ("Agent with email " ++ email ++ " already exists")) := by
  simp [registerAndPublish, registerAgent, ha]

/-- Claim C4, witness: the amended behaviour at the concrete
already-active vault. -/
theorem claim_C4_amended_witness :
    (registerAndPublish [("a@x.com", activeAgentX)] "a@x.com" "https://x.com"
        "pw2" "t1" (Except.ok ()) none true true).1 = [("a@x.com", activeAgentX)]
    ∧ (registerAndPublish [("a@x.com", activeAgentX)] "a@x.com" "https://x.com"
        "pw2" "t1" (Except.ok ()) none true true).2.success = false
    ∧ (registerAndPublish [("a@x.com", activeAgentX)] "a@x.com" "https://x.com"
        "pw2" "t1" (Except.ok ()) none true true).2.error
        = some ("Registration and publishing failed: Agent registration failed: "
            ++ ("Agent with email " ++ "a@x.com" ++ " already exists")) :=
  claim_C4_amended [("a@x.com", activeAgentX)] "a@x.com" "https://x.com" "pw2" "t1"
    (Except.ok ()) none true true activeAgentX (by decide)

/-! ## Claim C6 -/

/-- Claim C6, counterexample.  The claim states every storage I/O failure
inside a vault operation is propagated rather than absorbed into a
default.  A failing read inside `loadAgents` is absorbed: the catch
handler returns the default empty store `{ agents: {} }`, and no error
reaches the caller. -/
theorem claim_C6_counterexample :
    loadAgents (Except.error "EACCES: permission denied, open agents.json")
      = (emptyAgents : AgentsFile) := by
  rfl

/-- Claim C6, amended.  Write failures behave as the claim states: a
failing `saveAgents` rethrows the storage error unchanged (and performs
no internal retry — the model makes exactly one write attempt per call),
while a successful save writes the serialized store.  Read failures do
not: a failing `loadAgents` is absorbed into the default empty store
instead of being propagated. -/
theorem claim_C6_amended (m : AgentsFile) (e : String) :
    saveAgents m (Except.error e) = Except.error e
    ∧ saveAgents m (Except.ok ()) = Except.ok (encodeAgentsFile m)
    ∧ loadAgents (Except.error e) = (emptyAgents : AgentsFile) :=
  ⟨rfl, rfl, rfl⟩

/-! ## Claim C7 -/

theorem statusFromString_statusToString (st : AgentStatus) :
    statusFromString (statusToString st) = some st := by
  cases st <;> rfl

theorem decodeCredentials_encodeCredentials (c : AgentCredentials) :
    decodeCredentials (encodeCredentials c) = some c := by
  obtain ⟨u, ap⟩ := c
  rcases ap with _ | p <;> rfl

theorem decodeAgent_encodeAgent (a : Agent) : decodeAgent (encodeAgent a) = some a := by
  obtain ⟨email, agentName, wordpressUrl, password, createdAt, status, credentials,
    wordpressUsername⟩ := a
  rcases credentials with _ | ⟨u, ap⟩
  · cases status <;> rcases wordpressUsername with _ | w <;> rfl
  · cases status <;> rcases ap with _ | p <;> rcases wordpressUsername with _ | w <;> rfl

theorem decodeAgentEntries_map (m : AgentsFile) :
    decodeAgentEntries (m.map (fun p => (p.1, encodeAgent p.2))) = some m := by
  induction m with
  | nil => rfl
  | cons p rest ih =>
    simp only [List.map_cons, decodeAgentEntries, decodeAgent_encodeAgent, ih,
      Option.bind_eq_bind, Option.some_bind]
    rfl

theorem decodeAgentsFile_encodeAgentsFile (m : AgentsFile) :
    decodeAgentsFile (encodeAgentsFile m) = some m := by
  simp [decodeAgentsFile, encodeAgentsFile, Json.getField, decodeAgentEntries_map]

/-- Claim C7, confirmed.  A vault state persisted by `saveAgents` and
reloaded by `loadAgents` comes back identical — in particular every
stored Agent's `status` and derived credential
(`credentials.appPassword`) are byte-for-byte those that were written. -/
theorem claim_C7_roundtrip (m : AgentsFile) :
    loadAgents (saveAgents m (Except.ok ())) = m
    ∧ ∀ email : String,
        (lookupAgent (loadAgents (saveAgents m (Except.ok ()))) email).map Agent.derivedCredential
          = (lookupAgent m email).map Agent.derivedCredential
        ∧ (lookupAgent (loadAgents (saveAgents m (Except.ok ()))) email).map Agent.status
          = (lookupAgent m email).map Agent.status := by
  have h : loadAgents (saveAgents m (Except.ok ())) = m := by
    simp only [saveAgents, loadAgents, decodeAgentsFile_encodeAgentsFile, Option.getD_some]
  exact ⟨h, fun email => ⟨by rw [h], by rw [h]⟩⟩

/-! ## Claim C8 -/

/-- If no poll ever finds the message, the loop always terminates in the
timeout outcome (never in an exception), whatever mixture of
empty-mailbox polls and thrown polls occurs. -/
theorem checkLoop_timeout (poll : Nat → PollResult) (interval timeout : Nat)
    (hpos : 0 < interval) (foundAt : String)
    (hnf : ∀ k, (poll k).isFound = false) :
    ∀ (fuel elapsed attempts : Nat), timeout - elapsed ≤ fuel →
    ∃ n, checkLoop poll interval timeout hpos foundAt elapsed attempts
        = .timedOut (verifyTimeoutMsg timeout) n := by
  intro fuel
  induction fuel with
  | zero =>
    intro elapsed attempts hle
    rw [checkLoop, dif_neg (by omega)]
    exact ⟨attempts, rfl⟩
  | succ f ih =>
    intro elapsed attempts hle
    by_cases hcond : elapsed < timeout
    · rw [checkLoop, dif_pos hcond]
      rcases hp : poll (attempts + 1) with ⟨em, l, su⟩ | _ | msg
      · exact absurd (hnf (attempts + 1)) (by simp [hp, PollResult.isFound])
      · exact ih (elapsed + interval) (attempts + 1) (by omega)
      · exact ih (elapsed + interval) (attempts + 1) (by omega)
    · rw [checkLoop, dif_neg hcond]
      exact ⟨attempts, rfl⟩

/-- If the first n polls fail to find the message (whether they find
nothing or throw), the (n+1)-th poll finds it, and the n sleeps so far
have not consumed the deadline, the loop returns the success outcome —
the earlier thrown polls are absorbed, not propagated. -/
theorem checkLoop_found (poll : Nat → PollResult) (interval timeout : Nat)
    (hpos : 0 < interval) (foundAt : String) (em : String) (l : Option String) (su : String) :
    ∀ (n elapsed attempts : Nat),
    (∀ k, attempts < k → k ≤ attempts + n → (poll k).isFound = false) →
    poll (attempts + n + 1) = .found em l su →
    elapsed + n * interval < timeout →
    checkLoop poll interval timeout hpos foundAt elapsed attempts = .ok em l su foundAt := by
  intro n
  induction n with
  | zero =>
    intro elapsed attempts _ hfound hdl
    rw [checkLoop, dif_pos (by omega)]
    rw [Nat.add_zero] at hfound
    rw [hfound]
  | succ n ih =>
    intro elapsed attempts hnf hfound hdl
    have hcond : elapsed < timeout := by omega
    rw [checkLoop, dif_pos hcond]
    have h1 : (poll (attempts + 1)).isFound = false := hnf (attempts + 1) (by omega) (by omega)
    rcases hp : poll (attempts + 1) with ⟨em', l', su'⟩ | _ | msg
    · rw [hp] at h1
      exact absurd h1 (by simp [PollResult.isFound])
    · exact ih (elapsed + interval) (attempts + 1)
        (fun k hk1 hk2 => hnf k (by omega) (by omega))
        (by rw [show attempts + 1 + n + 1 = attempts + (n + 1) + 1 from by omega]; exact hfound)
        (by have hm : (n + 1) * interval = n * interval + interval := by ring
            omega)
    · exact ih (elapsed + interval) (attempts + 1)
        (fun k hk1 hk2 => hnf k (by omega) (by omega))
        (by rw [show attempts + 1 + n + 1 = attempts + (n + 1) + 1 from by omega]; exact hfound)
        (by have hm : (n + 1) * interval = n * interval + interval := by ring
            omega)

/-- Claim C8, confirmed.  `checkEmailVerification` never propagates a
failed poll: it is a total function into the success / timeout outcome
objects.  (a) When no matching message ever arrives — polls finding
nothing or throwing, in any mixture — the run ends in the
`VerificationTimeout` outcome object (`success:false` with the timeout
message and the attempt count), not an exception.  (b) A poll that
throws is absorbed: if the first n polls throw or find nothing and poll
n+1 finds the message before the deadline, the run still returns the
success outcome. -/
theorem claim_C8_poll_failures_absorbed (poll : Nat → PollResult) (timeout interval : Nat)
    (hpos : 0 < interval) (foundAt : String) :
    ((∀ k, (poll k).isFound = false) →
      ∃ n, checkEmailVerification poll timeout interval hpos foundAt
          = .timedOut (verifyTimeoutMsg timeout) n)
    ∧ (∀ (n : Nat) (em : String) (l : Option String) (su : String),
        (∀ k, 0 < k → k ≤ n → (poll k).isFound = false) →
        poll (n + 1) = .found em l su →
        n * interval < timeout →
        checkEmailVerification poll timeout interval hpos foundAt = .ok em l su foundAt) := by
  constructor
  · intro hnf
    exact checkLoop_timeout poll interval timeout hpos foundAt hnf (timeout - 0) 0 0 le_rfl
  · intro n em l su hnf hfound hdl
    exact checkLoop_found poll interval timeout hpos foundAt em l su n 0 0
      (fun k hk1 hk2 => hnf k hk1 (by omega))
      (by rw [show 0 + n + 1 = n + 1 from by omega]; exact hfound)
      (by omega)

/-- Claim C8, witness: a mailbox whose first poll throws and whose second
poll finds the verification message; with the default 30 s timeout and
5 s interval the run succeeds — the thrown first poll is absorbed. -/
theorem claim_C8_poll_failures_absorbed_witness :
    checkEmailVerification pollErrThenFound 30000 5000 (by decide) "t2"
      = .ok "env-2" (some "https://x.com/wp-activate.php?key=k") "WordPress" "t2" :=
  (claim_C8_poll_failures_absorbed pollErrThenFound 30000 5000 (by decide) "t2").2
    1 "env-2" (some "https://x.com/wp-activate.php?key=k") "WordPress"
    (fun k hk1 hk2 => by
      have hk : k = 1 := by omega
      rw [hk]
      rfl)
    rfl
    (by decide)

end BuddyClaw
